import Mathlib

/-!
Shallow embedding of the invoice-processing pipeline (CAP/Node.js service):
supplier resolution with geographic boosting (`srv/handlers/supplier.js`),
PO line matching, duplicate-line consolidation, three-way-match evaluation
and GR snapshot updates (`srv/handlers/po-matcher.js`), and the invoice
validators (`srv/handlers/workflow.js` `ValidateInvoice`,
`srv/handlers/invoice.js` `ValidateForPosting`), together with proofs of the
specified properties.

Decimal/score values are modelled as rationals (`ℚ`); database-nullable
columns as `Option` types.  JavaScript string truthiness (`null`/`''` falsy)
is modelled by `truthyStr`.
-/

namespace Bas

/-- JS truthiness of a nullable string column: `null` and `''` are falsy. -/
def truthyStr : Option String → Bool
  | some s => s ≠ ""
  | none => false

/-- `helpers.js` `toNumber(value, decimals)` on a nullable numeric value:
`null`/`''` give `null`, otherwise the value is rounded to `decimals`
decimal places (`Number(num.toFixed(decimals))`). -/
def toNumber (decimals : ℕ) (v : Option ℚ) : Option ℚ :=
  v.map (fun q => (round (q * 10 ^ decimals) : ℚ) / 10 ^ decimals)

/-- The pervasive `toNumber(v, d) || 0` idiom: `null` collapses to `0`. -/
def toNumberOr0 (decimals : ℕ) (v : Option ℚ) : ℚ :=
  (toNumber decimals v).getD 0

/-- A rational representable with `d` decimal places (the values actually
stored in the `Decimal(_, d)` columns). -/
def DecScale (d : ℕ) (q : ℚ) : Prop := ∃ n : ℤ, q = n / 10 ^ d

/-- JS `String.prototype.padStart(len, '0')`: left-pad with zeros up to
`len`; strings already at least `len` long are returned unchanged. -/
def padStart (len : ℕ) (c : Char) (s : String) : String :=
  ⟨List.replicate (len - s.length) c ++ s.data⟩

/-- Strip non-digit characters (`.replace(/[^0-9]/g, '')`). -/
def stripNonDigits (s : String) : String := ⟨s.data.filter Char.isDigit⟩

/-- First 5 digits of a postal code, as compared by the resolver:
`.replace(/[^0-9]/g, '').substring(0, 5)`. -/
def zip5 (s : String) : String := ⟨(stripNonDigits s).data.take 5⟩

/-- Case-insensitive trimmed string comparison
(`a.trim().toUpperCase() === b.trim().toUpperCase()`). -/
def ciTrimEq (a b : String) : Bool := a.trim.toUpper == b.trim.toUpper

end Bas

namespace Bas.Supplier

/-!
`srv/handlers/supplier.js` — `MatchSupplier` (the geographically boosted
revision).  A candidate row as returned by the vector search, and the invoice
header address fields it is compared against.
-/

/-- A candidate row of the supplier vector search (step 1 of `MatchSupplier`). -/
structure CandidateRow where
  supplierNumber : String
  supplierName : String
  city : Option String
  state : Option String
  postalCode : Option String
  nameScore : ℚ
deriving Repr, DecidableEq

/-- The invoice-header address fields read by `MatchSupplier`. -/
structure HeaderGeo where
  senderCity : Option String
  senderState : Option String
  senderPostalCode : Option String
deriving Repr, DecidableEq

/-- City boost guard: both sides truthy and equal after trim + upper-case. -/
def cityMatches (h : HeaderGeo) (row : CandidateRow) : Bool :=
  match h.senderCity, row.city with
  | some hc, some rc => hc ≠ "" && rc ≠ "" && ciTrimEq hc rc
  | _, _ => false

/-- State boost guard. -/
def stateMatches (h : HeaderGeo) (row : CandidateRow) : Bool :=
  match h.senderState, row.state with
  | some hs, some rs => hs ≠ "" && rs ≠ "" && ciTrimEq hs rs
  | _, _ => false

/-- Postal-code boost guard: compares the first 5 digits after stripping
non-digits; both stripped strings must be non-empty. -/
def zipMatches (h : HeaderGeo) (row : CandidateRow) : Bool :=
  match h.senderPostalCode, row.postalCode with
  | some hz, some rz =>
      hz ≠ "" && rz ≠ "" && zip5 hz ≠ "" && zip5 rz ≠ "" && zip5 hz == zip5 rz
  | _, _ => false

/-- Step 2 of `MatchSupplier`: sequential accumulation of the geographic
boosts onto the raw name score, then `Math.min(finalScore, 1.0)`. -/
def boostedScore (h : HeaderGeo) (row : CandidateRow) : ℚ :=
  let s0 := row.nameScore
  let s1 := if cityMatches h row then s0 + 5 / 100 else s0
  let s2 := if stateMatches h row then s1 + 3 / 100 else s1
  let s3 := if zipMatches h row then s2 + 2 / 100 else s2
  min s3 1

/-- Step 4 of `MatchSupplier`: classify the top candidate's final score into
a `(confidence, matchStatus)` pair.  Thresholds are inclusive lower bounds. -/
def classifyScore (score : ℚ) : String × String :=
  if score ≥ 95 / 100 then ("HIGH", "MATCHED")
  else if score ≥ 85 / 100 then ("MEDIUM", "MATCHED")
  else if score ≥ 70 / 100 then ("LOW", "MANUAL_REVIEW")
  else ("VERY_LOW", "NO_MATCH")

end Bas.Supplier

namespace Bas.POMatch

/-!
`srv/handlers/po-matcher.js` — `MatchPOItems`, `consolidateDuplicatePOItems`.
A `DoxItem` is an extracted invoice line (`DOXInvoiceItem` row); a
`POMatchRow` is one row of the per-line vector search result, already ordered
by descending `matchScore` by the query (`ORDER BY "matchScore" DESC LIMIT 3`),
so the code's `poMatches[0]` is the list head.
-/

/-- An extracted invoice line (`DOXInvoiceItem`).  `materialNumber` and
`description` model `null` as `""` (both falsy in the query-building
`filter(Boolean)`). -/
structure DoxItem where
  id : String
  lineNumber : ℕ
  materialNumber : String
  description : String
  quantity : Option ℚ
  netAmount : Option ℚ
  taxAmount : Option ℚ
  matchStatus : String
  matchedPOItem : Option String
  matchScore : Option ℚ
deriving Repr, DecidableEq

/-- A row of the PO-line vector search result for one invoice line. -/
structure POMatchRow where
  id : String
  purchaseOrderItem : String
  invoiceIsGoodsReceiptBased : Bool
  grQuantityPosted : Option ℚ
  matchScore : ℚ
deriving Repr, DecidableEq

/-- Query string for a line: `[materialNumber, description].filter(Boolean).join(' ')`. -/
def queryOf (item : DoxItem) : String :=
  String.intercalate " " ([item.materialNumber, item.description].filter (fun s => s ≠ ""))

/-- Aggregate counters threaded through the matching loop of `MatchPOItems`. -/
structure MatchState where
  matchedCount : ℕ
  threeWayMatchRequired : Bool
  grChecksRequired : ℕ
  grChecksPassed : ℕ
deriving Repr, DecidableEq

def initState : MatchState :=
  { matchedCount := 0, threeWayMatchRequired := false,
    grChecksRequired := 0, grChecksPassed := 0 }

/-- One iteration of the `for (const doxItem of doxItems)` loop: an empty
query is skipped; with candidates, the best one is accepted iff its score is
`>= 0.7`; acceptance of a goods-receipt-based PO line flips
`threeWayMatchRequired` and tallies the GR check
(`toNumber(bestMatch.GrQuantityPosted, 3) || 0 > 0`). -/
def matchDoxItem (s : MatchState) (item : DoxItem) (cands : List POMatchRow) :
    MatchState × DoxItem :=
  if queryOf item = "" then (s, item)
  else
    match cands with
    | [] => (s, { item with matchStatus := "NO_MATCH" })
    | best :: _ =>
      if 7 / 10 ≤ best.matchScore then
        let s1 := { s with matchedCount := s.matchedCount + 1 }
        let s2 :=
          if best.invoiceIsGoodsReceiptBased then
            { s1 with
              threeWayMatchRequired := true
              grChecksRequired := s1.grChecksRequired + 1
              grChecksPassed := s1.grChecksPassed +
                if 0 < toNumberOr0 3 best.grQuantityPosted then 1 else 0 }
          else s1
        (s2, { item with matchStatus := "MATCHED", matchedPOItem := some best.id,
                         matchScore := some best.matchScore })
      else
        (s, { item with matchStatus := "NO_MATCH", matchScore := some best.matchScore })

/-- The matching loop over all lines, each paired with its vector-search
result, threading the counters and collecting the updated lines. -/
def runMatchPassAux (s : MatchState) :
    List (DoxItem × List POMatchRow) → MatchState × List DoxItem
  | [] => (s, [])
  | (item, cands) :: rest =>
    let p := matchDoxItem s item cands
    let r := runMatchPassAux p.1 rest
    (r.1, p.2 :: r.2)

def runMatchPass (inputs : List (DoxItem × List POMatchRow)) :
    MatchState × List DoxItem :=
  runMatchPassAux initState inputs

/-- `MatchPOItems` line 222: `!threeWayMatchRequired ||
(grChecksPassed === grChecksRequired && grChecksRequired > 0)`. -/
def threeWayMatchPassed (s : MatchState) : Bool :=
  !s.threeWayMatchRequired ||
    (s.grChecksPassed == s.grChecksRequired && decide (0 < s.grChecksRequired))

/-- A line/candidates pair the loop accepts as MATCHED: non-empty query,
candidates returned, and best score `>= 0.7`. -/
def lineAccepted (p : DoxItem × List POMatchRow) : Bool :=
  queryOf p.1 ≠ "" &&
    match p.2 with
    | [] => false
    | best :: _ => decide (7 / 10 ≤ best.matchScore)

/-- An accepted line whose matched PO line is goods-receipt based. -/
def lineAcceptedGR (p : DoxItem × List POMatchRow) : Bool :=
  lineAccepted p &&
    match p.2 with
    | [] => false
    | best :: _ => best.invoiceIsGoodsReceiptBased

/-- The matched PO line has positive received-quantity-to-date
(`toNumber(bestMatch.GrQuantityPosted, 3) || 0 > 0`). -/
def lineGRReceived (p : DoxItem × List POMatchRow) : Bool :=
  match p.2 with
  | [] => false
  | best :: _ => decide (0 < toNumberOr0 3 best.grQuantityPosted)

end Bas.POMatch

namespace Bas.POMatch

/-!
`consolidateDuplicatePOItems`: all MATCHED lines with a non-null
`matchedPOItem_ID` are grouped by that reference (first-seen member of each
group is the keep item); for groups with duplicates the keep item receives
the summed quantity / net amount / tax amount and a `" (Consolidated)"`
description suffix, and every duplicate row is deleted.  The denotation below
maps the line list to the post-consolidation line list in database order.
-/

/-- The `where({matchStatus: 'MATCHED'}).and('matchedPOItem_ID is not null')`
selection used for grouping. -/
def isMatchedLine (l : DoxItem) : Bool :=
  l.matchStatus == "MATCHED" && l.matchedPOItem.isSome

/-- Grouping key of a matched line (its matched-PO-line reference). -/
def keyOf (l : DoxItem) : String := l.matchedPOItem.getD ""

/-- The group of matched lines sharing key `k`, in read order. -/
def groupFor (matched : List DoxItem) (k : String) : List DoxItem :=
  matched.filter (fun m => m.matchedPOItem == some k)

/-- `totalQuantity`: keep item plus duplicates, each via `toNumber(·,3) || 0`. -/
def sumQty (g : List DoxItem) : ℚ := (g.map (fun m => toNumberOr0 3 m.quantity)).sum

/-- `totalNetAmount` (2 decimals). -/
def sumNet (g : List DoxItem) : ℚ := (g.map (fun m => toNumberOr0 2 m.netAmount)).sum

/-- `totalTaxAmount` (2 decimals). -/
def sumTax (g : List DoxItem) : ℚ := (g.map (fun m => toNumberOr0 2 m.taxAmount)).sum

/-- The update applied to a group's keep item: consolidated totals and the
`" (Consolidated)"` description marker. -/
def consolidatedLine (g : List DoxItem) (keep : DoxItem) : DoxItem :=
  { keep with
    quantity := some (sumQty g)
    netAmount := some (sumNet g)
    taxAmount := some (sumTax g)
    description := keep.description ++ " (Consolidated)" }

/-- Effect of consolidation on one stored line, given the matched-line list
`matched` used for grouping: non-matched lines are untouched; a group's keep
item (the first-seen member, identified by row id) survives — updated when
the group has duplicates — and every other group member is deleted. -/
def consolMap (matched : List DoxItem) (l : DoxItem) : Option DoxItem :=
  if isMatchedLine l then
    let g := groupFor matched (keyOf l)
    if g.head?.map DoxItem.id = some l.id then
      if 1 < g.length then some (consolidatedLine g l) else some l
    else none
  else some l

/-- `consolidateDuplicatePOItems` as a transformation of the stored line
list (kept in database order). -/
def consolidateDuplicatePOItems (ls : List DoxItem) : List DoxItem :=
  ls.filterMap (consolMap (ls.filter isMatchedLine))

/-- The distinct matched-PO-line references, i.e. the consolidation group
keys. -/
def matchedKeys (ls : List DoxItem) : List String :=
  ((ls.filter isMatchedLine).map keyOf).dedup

/-- `consolidatedCount`: number of groups that had duplicates. -/
def consolidatedCount (ls : List DoxItem) : ℕ :=
  (matchedKeys ls).countP (fun k => 1 < (groupFor (ls.filter isMatchedLine) k).length)

/-- Sum over consolidation groups of (group size − 1) = number of deleted
duplicate rows. -/
def deletedPerGroupSum (ls : List DoxItem) : ℕ :=
  ((matchedKeys ls).map (fun k => (groupFor (ls.filter isMatchedLine) k).length - 1)).sum

end Bas.POMatch

namespace Bas.POMatch

/-- The structured return of `MatchPOItems` (the `matches` audit array is
not modelled). -/
structure MatchResult where
  totalDoxItems : ℕ
  matchedItems : ℕ
  unmatchedItems : ℕ
  consolidatedItems : ℕ
  finalItemCount : ℕ
  threeWayMatchRequired : Bool
  threeWayMatchPassed : Bool
  confidence : String
  status : String
  message : String
deriving Repr, DecidableEq

/-- `poNumber || header.purchaseOrderNumber` (JS `||` on nullable strings). -/
def jsOrStr (a b : Option String) : Option String := if truthyStr a then a else b

/-- Early return of `MatchPOItems` when no PO number is available
(the handler updates the header and returns this record; `req.error` is not
called on this path). -/
def noPOResult : MatchResult :=
  { totalDoxItems := 0, matchedItems := 0, unmatchedItems := 0,
    consolidatedItems := 0, finalItemCount := 0,
    threeWayMatchRequired := false, threeWayMatchPassed := false,
    confidence := "NONE", status := "NO_PO",
    message := "No PO number available for matching" }

/-- Early return of `MatchPOItems` when the invoice has no extracted line
items (again without `req.error`). -/
def noItemsResult : MatchResult :=
  { totalDoxItems := 0, matchedItems := 0, unmatchedItems := 0,
    consolidatedItems := 0, finalItemCount := 0,
    threeWayMatchRequired := false, threeWayMatchPassed := false,
    confidence := "NONE", status := "NO_ITEMS",
    message := "No DOX items to match" }

/-- `MatchPOItems` for an existing invoice, after the `headerId` guards:
`poParam` is the action's optional `poNumber`, `headerPO` the stored
`purchaseOrderNumber`, and `inputs` the extracted lines paired with their
vector-search results.  Mirrors the handler: early NO_PO / NO_ITEMS returns,
the matching loop, consolidation, post-consolidation match rate, confidence
bands (HIGH ≥ 0.9, MEDIUM ≥ 0.7, else LOW) and header status
(MATCHED / PARTIAL / NO_MATCH). -/
def runMatchPOItems (poParam headerPO : Option String)
    (inputs : List (DoxItem × List POMatchRow)) : MatchResult :=
  if !truthyStr (jsOrStr poParam headerPO) then noPOResult
  else if inputs.length = 0 then noItemsResult
  else
    let pass := runMatchPass inputs
    let s := pass.1
    let finalItems := consolidateDuplicatePOItems pass.2
    let finalMatchedCount := (finalItems.filter (fun i => i.matchStatus == "MATCHED")).length
    let matchRate : ℚ := (finalMatchedCount : ℚ) / (finalItems.length : ℚ)
    let confidence :=
      if matchRate ≥ 9 / 10 then "HIGH"
      else if matchRate ≥ 7 / 10 then "MEDIUM"
      else "LOW"
    let poMatchStatus :=
      if finalMatchedCount = finalItems.length then "MATCHED"
      else if 0 < finalMatchedCount then "PARTIAL"
      else "NO_MATCH"
    let mc := s.matchedCount
    let total := inputs.length
    let fc := finalItems.length
    { totalDoxItems := inputs.length
      matchedItems := s.matchedCount
      unmatchedItems := inputs.length - s.matchedCount
      consolidatedItems := consolidatedCount pass.2
      finalItemCount := finalItems.length
      threeWayMatchRequired := s.threeWayMatchRequired
      threeWayMatchPassed := threeWayMatchPassed s
      confidence := confidence
      status := poMatchStatus
      message := s!"{mc} of {total} items matched, consolidated to {fc} items with {confidence} confidence" }

end Bas.POMatch

namespace Bas.POMatch

/-!
`UpsertGRSnapshots` and `mapPOItem`: the cached PO line's quantity tracking.
-/

/-- The quantity-tracking slice of a cached `SAPPOItem` row. -/
structure POLineQty where
  orderQuantity : Option ℚ
  openQuantity : Option ℚ
  grQuantityPosted : Option ℚ
deriving Repr, DecidableEq

/-- `mapPOItem`: a freshly synced PO line is stored with
`OpenQuantity = toNumber(raw.OrderQuantity, 3)` (equal to `OrderQuantity`)
and `GrQuantityPosted = 0`. -/
def mapPOItemQty (rawOrderQuantity : Option ℚ) : POLineQty :=
  { orderQuantity := toNumber 3 rawOrderQuantity
    openQuantity := toNumber 3 rawOrderQuantity
    grQuantityPosted := some 0 }

/-- One `UpsertGRSnapshots` update of a cached PO line: the incoming GR
quantity is added to `GrQuantityPosted` and `OpenQuantity` is recomputed as
`OrderQuantity - newGrQty`. -/
def applyGRSnapshot (cur : POLineQty) (grQuantityInEntryUnit : Option ℚ) : POLineQty :=
  let incQty := toNumberOr0 3 grQuantityInEntryUnit
  let newGrQty := toNumberOr0 3 cur.grQuantityPosted + incQty
  let newOpenQty := toNumberOr0 3 cur.orderQuantity - newGrQty
  { cur with grQuantityPosted := some newGrQty, openQuantity := some newOpenQty }

end Bas.POMatch

namespace Bas.POMatch

/-- Sample line list for the consolidation witness: two MATCHED lines on the
same PO line reference plus one unmatched line. -/
def sampleConsolidationLines : List DoxItem :=
  [{ id := "d1", lineNumber := 1, materialNumber := "MAT-1",
     description := "Steel bolt", quantity := some 5, netAmount := some 100,
     taxAmount := some 10, matchStatus := "MATCHED",
     matchedPOItem := some "p1", matchScore := some (9 / 10) },
   { id := "d2", lineNumber := 2, materialNumber := "MAT-1",
     description := "Steel bolt extra", quantity := some 3, netAmount := some 60,
     taxAmount := some 5, matchStatus := "MATCHED",
     matchedPOItem := some "p1", matchScore := some (85 / 100) },
   { id := "d3", lineNumber := 3, materialNumber := "MAT-2",
     description := "Unmatched", quantity := none, netAmount := none,
     taxAmount := none, matchStatus := "NO_MATCH",
     matchedPOItem := none, matchScore := none }]

end Bas.POMatch

namespace Bas.Validate

open Bas.POMatch (DoxItem)

/-!
`srv/handlers/workflow.js` — `ProcessSupplierSelection` (MANUAL branch) and
`ValidateInvoice`; `srv/handlers/invoice.js` — `ValidateForPosting`.
Dynamic score/percentage interpolations inside log messages are abbreviated
to their static prefix; counts are interpolated exactly.
-/

/-- The invoice-header fields read or written by supplier selection and the
validators.  Nullable columns are `Option`s; the Boolean flags
`threeWayMatchRequired` / `grCheckPassed` model SQL `NULL` as `false`
(JS falsy). -/
structure Header where
  matchedSupplierNumber : Option String
  matchedSupplierName : Option String
  supplier : Option String
  supplierName : Option String
  supplierMatchScore : Option ℚ
  supplierMatchStatus : Option String
  netAmount : Option ℚ
  grossAmount : Option ℚ
  currencyCode : Option String
  documentDate : Option String
  companyCode : Option String
  purchaseOrderNumber : Option String
  threeWayMatchRequired : Bool
  grCheckPassed : Bool
  threeWayMatchStatus : Option String
  step : Option String
  status : Option String
  message : Option String
deriving Repr, DecidableEq

/-- A `{field, message, severity, code}` entry built by `addError`. -/
structure VEntry where
  field : String
  message : String
  severity : String
  code : String
deriving Repr, DecidableEq

/-- One validation category: `addError` appends every entry to `errors` and
additionally to `warnings` when the severity is WARNING; `passed` is set in
the aggregation step (no ERROR-severity entry). -/
structure CategoryResult where
  passed : Bool
  errors : List VEntry
  warnings : List VEntry
deriving Repr, DecidableEq

/-- `!header.netAmount || header.netAmount <= 0` (null, 0 and negatives). -/
def amountMissingOrNonpos : Option ℚ → Bool
  | none => true
  | some q => decide (q ≤ 0)

/-- `header.supplierMatchScore < 0.7` with SQL `NULL` coerced to 0 by the
JS relational comparison. -/
def supplierScoreLow (score : Option ℚ) : Bool := decide (score.getD 0 < 7 / 10)

/-- Supplier check of `ValidateInvoice`: ERROR `SUP_001` when unmatched,
else WARNING `SUP_002` when the match score is below 0.7. -/
def supplierChecks (h : Header) : List VEntry :=
  if !truthyStr h.matchedSupplierNumber then
    [{ field := "supplier", message := "Supplier not matched",
       severity := "ERROR", code := "SUP_001" }]
  else if supplierScoreLow h.supplierMatchScore then
    [{ field := "supplier", message := "Supplier match confidence low",
       severity := "WARNING", code := "SUP_002" }]
  else []

/-- Amount checks of `ValidateInvoice` (`AMT_001` … `AMT_005`). -/
def amountChecks (h : Header) : List VEntry :=
  (if amountMissingOrNonpos h.netAmount then
    [{ field := "netAmount", message := "Net amount is missing or invalid",
       severity := "ERROR", code := "AMT_001" }] else []) ++
  (if amountMissingOrNonpos h.grossAmount then
    [{ field := "grossAmount", message := "Gross amount is missing or invalid",
       severity := "ERROR", code := "AMT_002" }] else []) ++
  (if !truthyStr h.currencyCode then
    [{ field := "currency", message := "Currency code is required",
       severity := "ERROR", code := "AMT_003" }] else []) ++
  (if !truthyStr h.documentDate then
    [{ field := "documentDate", message := "Document date is required",
       severity := "ERROR", code := "AMT_004" }] else []) ++
  (if !truthyStr h.companyCode then
    [{ field := "companyCode", message := "Company code is required",
       severity := "ERROR", code := "AMT_005" }] else [])

/-- Number of MATCHED extracted lines. -/
def matchedCountOf (items : List DoxItem) : ℕ :=
  (items.filter (fun i => i.matchStatus == "MATCHED")).length

/-- PO check of `ValidateInvoice`, evaluated only when a PO number is
present: ERROR `PO_001` when zero of a non-empty line set matched, else
WARNING `PO_002` when only some lines matched. -/
def poChecks (h : Header) (items : List DoxItem) : List VEntry :=
  if truthyStr h.purchaseOrderNumber then
    let matchedCount := matchedCountOf items
    let totalCount := items.length
    if matchedCount = 0 ∧ 0 < items.length then
      [{ field := "poItems", message := "No DOX items matched to PO items",
         severity := "ERROR", code := "PO_001" }]
    else if matchedCount < items.length then
      [{ field := "poItems",
         message := s!"Only {matchedCount} of {totalCount} items matched",
         severity := "WARNING", code := "PO_002" }]
    else []
  else []

/-- Three-way-match check of `ValidateInvoice`: nested inside the PO-number
guard, evaluated only when `threeWayMatchRequired`; `GR_001` when the GR
check did not pass, `GR_002` when the stored status is FAILED. -/
def threeWayChecks (h : Header) : List VEntry :=
  if truthyStr h.purchaseOrderNumber && h.threeWayMatchRequired then
    (if !h.grCheckPassed then
      [{ field := "goodsReceipt",
         message := "3-way match failed: Goods receipt not posted for all items",
         severity := "ERROR", code := "GR_001" }] else []) ++
    (if h.threeWayMatchStatus == some "FAILED" then
      [{ field := "threeWayMatch", message := "3-way match validation failed",
         severity := "ERROR", code := "GR_002" }] else [])
  else []

/-- Aggregated result of `ValidateInvoice`. -/
structure VResult where
  isValid : Bool
  status : String
  supplierValidation : CategoryResult
  amountValidation : CategoryResult
  poValidation : CategoryResult
  threeWayMatchValidation : CategoryResult
  errorCount : ℕ
  warningCount : ℕ
  message : String
  allErrors : List VEntry
deriving Repr, DecidableEq

/-- Category aggregation: `passed` iff no ERROR-severity entry; `warnings`
holds the WARNING-severity entries pushed by `addError`. -/
def mkCategory (entries : List VEntry) : CategoryResult :=
  { passed := (entries.filter (fun e => e.severity == "ERROR")).length = 0
    errors := entries
    warnings := entries.filter (fun e => e.severity == "WARNING") }

/-- `ValidateInvoice`: the pure read-aggregate over the header and its
extracted lines. -/
def validateInvoice (h : Header) (items : List DoxItem) : VResult :=
  let sup := supplierChecks h
  let amt := amountChecks h
  let po := poChecks h items
  let twm := threeWayChecks h
  let all := sup ++ amt ++ po ++ twm
  let errorCount := (all.filter (fun e => e.severity == "ERROR")).length
  let warningCount := (all.filter (fun e => e.severity == "WARNING")).length
  let status :=
    if 0 < errorCount then "INVALID"
    else if 0 < warningCount then "VALID_WITH_WARNINGS"
    else "VALID"
  let message :=
    if 0 < errorCount then s!"Validation failed with {errorCount} error(s)"
    else if 0 < warningCount then s!"Validation passed with {warningCount} warning(s)"
    else "All validations passed successfully"
  { isValid := errorCount = 0
    status := status
    supplierValidation := mkCategory sup
    amountValidation := mkCategory amt
    poValidation := mkCategory po
    threeWayMatchValidation := mkCategory twm
    errorCount := errorCount
    warningCount := warningCount
    message := message
    allErrors := all }

/-- The header snapshot written at the end of `ValidateInvoice`
(`step`/`status`/`message` only). -/
def applyValidationUpdate (h : Header) (v : VResult) : Header :=
  { h with
    step := some (if v.isValid then "VALIDATED" else "VALIDATION_FAILED")
    status := some (if v.isValid then "IN_PROGRESS" else "ERROR")
    message := some v.message }

/-- A row of `InvoiceProcessLog` as written by `logProcess`. -/
structure LogEntry where
  step : String
  status : String
  result : String
  message : String
deriving Repr, DecidableEq

/-- The single audit entry written by `ValidateInvoice`. -/
def validationLog (v : VResult) : LogEntry :=
  { step := "VALIDATE"
    status := if v.isValid then "PASSED" else "FAILED"
    result := if v.isValid then "SUCCESS" else "FAILURE"
    message := v.message }

/-- The whole `ValidateInvoice` operation on an existing invoice: the
returned result, the updated header, and the audit-log rows appended. -/
def validateInvoiceOp (h : Header) (items : List DoxItem) :
    VResult × Header × List LogEntry :=
  let v := validateInvoice h items
  (v, applyValidationUpdate h v, [validationLog v])

/-- A `{field, message, severity}` entry of `ValidateForPosting`
(`srv/handlers/invoice.js`; these entries carry no code). -/
structure PostEntry where
  field : String
  message : String
  severity : String
deriving Repr, DecidableEq

/-- PO block of `ValidateForPosting`: ERROR whenever zero lines matched
(also for an empty line set), else WARNING when only some matched; plus the
GR check. -/
def postingPOChecks (h : Header) (items : List DoxItem) : List PostEntry :=
  if truthyStr h.purchaseOrderNumber then
    let matchedCount := matchedCountOf items
    let totalCount := items.length
    (if matchedCount = 0 then
      [{ field := "poItems", message := "No DOX items matched to PO items",
         severity := "ERROR" }]
    else if matchedCount < items.length then
      [{ field := "poItems",
         message := s!"Only {matchedCount} of {totalCount} items matched",
         severity := "WARNING" }]
    else []) ++
    (if h.threeWayMatchRequired && !h.grCheckPassed then
      [{ field := "goodsReceipt",
         message := "3-way match failed: Goods receipt not posted for all items",
         severity := "ERROR" }] else [])
  else []

/-- The `errors` array accumulated by `ValidateForPosting`, in push order. -/
def validateForPostingErrors (h : Header) (items : List DoxItem) : List PostEntry :=
  (if !truthyStr h.matchedSupplierNumber then
    [{ field := "supplier", message := "Supplier not matched",
       severity := "ERROR" }]
  else if supplierScoreLow h.supplierMatchScore then
    [{ field := "supplier", message := "Supplier match confidence low",
       severity := "WARNING" }]
  else []) ++
  (if amountMissingOrNonpos h.netAmount then
    [{ field := "netAmount", message := "Net amount is missing or invalid",
       severity := "ERROR" }] else []) ++
  (if !truthyStr h.companyCode then
    [{ field := "companyCode", message := "Company code is required",
       severity := "ERROR" }] else []) ++
  (if !truthyStr h.currencyCode then
    [{ field := "currency", message := "Currency code is required",
       severity := "ERROR" }] else []) ++
  postingPOChecks h items ++
  (if !truthyStr h.documentDate then
    [{ field := "documentDate", message := "Document date is required",
       severity := "ERROR" }] else [])

/-- `ProcessSupplierSelection`, MANUAL branch, after `ValidateSupplierNumber`
returned a valid/active verdict: the supplier number is zero-padded to 10
characters and written with a fixed match score of 1.0 and status MANUAL. -/
def applyManualSelection (h : Header) (supplierNumber : String)
    (validatedName : Option String) : Header :=
  let paddedNumber := padStart 10 '0' supplierNumber
  let nm := validatedName.getD ""
  { h with
    matchedSupplierNumber := some paddedNumber
    matchedSupplierName := validatedName
    supplier := some paddedNumber
    supplierName := validatedName
    supplierMatchScore := some 1
    supplierMatchStatus := some "MANUAL"
    step := some "SUPPLIER_MANUAL"
    message := some s!"Supplier manually entered: {nm}" }

end Bas.Validate

namespace Bas

theorem decScale_zero (d : ℕ) : DecScale d 0 := ⟨0, by simp⟩

theorem decScale_add {d : ℕ} {a b : ℚ} (ha : DecScale d a) (hb : DecScale d b) :
    DecScale d (a + b) := by
  obtain ⟨m, hm⟩ := ha
  obtain ⟨n, hn⟩ := hb
  exact ⟨m + n, by push_cast [hm, hn]; ring⟩

theorem decScale_sub {d : ℕ} {a b : ℚ} (ha : DecScale d a) (hb : DecScale d b) :
    DecScale d (a - b) := by
  obtain ⟨m, hm⟩ := ha
  obtain ⟨n, hn⟩ := hb
  exact ⟨m - n, by push_cast [hm, hn]; ring⟩

/-- Rounding to `d` decimals fixes every value already at scale `d`. -/
theorem toNumber_fixed {d : ℕ} {q : ℚ} (h : DecScale d q) :
    toNumber d (some q) = some q := by
  obtain ⟨n, hn⟩ := h
  have hp : (10 : ℚ) ^ d ≠ 0 := by positivity
  have hq : (round (q * 10 ^ d) : ℚ) / 10 ^ d = q := by
    rw [hn, div_mul_cancel₀ _ hp, round_intCast]
  simp [toNumber, hq]

theorem toNumberOr0_fixed {d : ℕ} {q : ℚ} (h : DecScale d q) :
    toNumberOr0 d (some q) = q := by
  simp [toNumberOr0, toNumber_fixed h]

/-- `toNumber` always produces a value at scale `d`. -/
theorem decScale_toNumberOr0 (d : ℕ) (v : Option ℚ) : DecScale d (toNumberOr0 d v) := by
  cases v with
  | none => exact decScale_zero d
  | some q =>
    simp only [toNumberOr0, toNumber, Option.map_some, Option.getD_some]
    exact ⟨round (q * 10 ^ d), rfl⟩

end Bas

namespace Bas.Supplier

/-- C4: the final candidate score is the raw name score plus the independent
cumulative geographic boosts (+0.05 city, +0.03 state, +0.02 postal code),
capped at 1.0, and it never exceeds 1.0 for any combination of boosts. -/
theorem boost_additive_and_capped (h : HeaderGeo) (row : CandidateRow) :
    boostedScore h row =
      min (row.nameScore
        + (if cityMatches h row then 5 / 100 else 0)
        + (if stateMatches h row then 3 / 100 else 0)
        + (if zipMatches h row then 2 / 100 else 0)) 1
    ∧ boostedScore h row ≤ 1 := by
  constructor
  · unfold boostedScore
    split_ifs <;> ring_nf
  · exact min_le_right _ _

/-- C3: the resolver classifies a score in `[0,1]` with inclusive lower
bounds — `[0.95,1]` is HIGH/MATCHED, `[0.85,0.95)` is MEDIUM/MATCHED,
`[0.70,0.85)` is LOW/MANUAL_REVIEW and `[0,0.70)` is VERY_LOW/NO_MATCH —
so the four bands partition `[0,1]` with no gaps. -/
theorem confidence_bands (s : ℚ) (h0 : 0 ≤ s) (h1 : s ≤ 1) :
    (classifyScore s = ("HIGH", "MATCHED") ↔ 95 / 100 ≤ s ∧ s ≤ 1)
    ∧ (classifyScore s = ("MEDIUM", "MATCHED") ↔ 85 / 100 ≤ s ∧ s < 95 / 100)
    ∧ (classifyScore s = ("LOW", "MANUAL_REVIEW") ↔ 70 / 100 ≤ s ∧ s < 85 / 100)
    ∧ (classifyScore s = ("VERY_LOW", "NO_MATCH") ↔ 0 ≤ s ∧ s < 70 / 100) := by
  unfold classifyScore
  split_ifs with hA hB hC <;>
    refine ⟨?_, ?_, ?_, ?_⟩ <;>
    simp only [Prod.mk.injEq, String.reduceEq, and_self, and_false, false_and,
      and_true, true_and, false_iff, true_iff, iff_true, iff_false, not_and,
      not_lt, ge_iff_le] <;>
    first
      | (constructor <;> linarith)
      | (intro hc; linarith)

/-- Witness for C3 at the concrete score 0.9. -/
theorem confidence_bands_witness :
    classifyScore (9 / 10) = ("MEDIUM", "MATCHED") :=
  ((confidence_bands (9 / 10) (by norm_num) (by norm_num)).2.1).mpr (by norm_num)

end Bas.Supplier

namespace Bas

/-- Length of a `filterMap` counts the elements mapped to `some`. -/
theorem length_filterMap_eq_countP {α β : Type} (G : α → Option β) (l : List α) :
    (l.filterMap G).length = l.countP (fun a => (G a).isSome) := by
  induction l with
  | nil => rfl
  | cons a l ih =>
    rw [List.countP_cons]
    cases h : G a with
    | none => rw [List.filterMap_cons_none h]; simp [ih, h]
    | some b => rw [List.filterMap_cons_some h]; simp [ih, h]

/-- A `filterMap` over a list whose every element maps to `none` is empty. -/
theorem filterMap_eq_nil_of {α β : Type} (G : α → Option β) (l : List α)
    (h : ∀ a ∈ l, G a = none) : l.filterMap G = [] := by
  induction l with
  | nil => rfl
  | cons a l ih =>
    rw [List.filterMap_cons_none (h a (by simp))]
    exact ih (fun x hx => h x (by simp [hx]))

/-- A `filterMap` over a duplicate-free list in which exactly one element
maps to `some b` yields `[b]`. -/
theorem filterMap_eq_singleton {α β : Type} (G : α → Option β) (l : List α)
    (hnd : l.Nodup) (a : α) (b : β) (ha : a ∈ l) (hGa : G a = some b)
    (hother : ∀ x ∈ l, x ≠ a → G x = none) : l.filterMap G = [b] := by
  induction l with
  | nil => cases ha
  | cons x xs ih =>
    by_cases hx : x = a
    · subst hx
      rw [List.filterMap_cons_some hGa]
      have hnil : xs.filterMap G = [] := by
        refine filterMap_eq_nil_of G xs (fun y hy => hother y (by simp [hy]) ?_)
        intro hya
        subst hya
        exact (List.nodup_cons.mp hnd).1 hy
      rw [hnil]
    · have hax : a ∈ xs := by
        cases List.mem_cons.mp ha with
        | inl h => exact absurd h.symm hx
        | inr h => exact h
      rw [List.filterMap_cons_none (hother x (by simp) hx)]
      exact ih (List.nodup_cons.mp hnd).2 hax (fun x hx hxa => hother x (by simp [hx]) hxa)

/-- `countP` of a conjunction equals `countP` of the first conjunct exactly
when the second conjunct holds on every element satisfying the first. -/
theorem countP_and_eq_countP {α : Type} (P Q : α → Bool) (l : List α) :
    (l.countP (fun a => P a && Q a) = l.countP P) ↔
      ∀ a ∈ l, P a = true → Q a = true := by
  induction l with
  | nil => simp
  | cons a l ih =>
    have hle : l.countP (fun a => P a && Q a) ≤ l.countP P :=
      List.countP_mono_left (fun x _ hx => ((Bool.and_eq_true _ _).mp hx).1)
    rw [List.countP_cons, List.countP_cons]
    constructor
    · intro h x hx hPx
      rcases List.mem_cons.mp hx with rfl | hxl
      · by_contra hQ
        have hQ' : Q x = false := by simp_all
        have hPQ : (P x && Q x) = false := by simp [hQ']
        rw [hPQ, hPx] at h
        simp only [if_true, if_false, Bool.false_eq_true, Nat.add_zero] at h
        omega
      · refine ih.mp ?_ x hxl hPx
        by_cases hPa : P a = true
        · by_cases hQa : Q a = true
          · have hPQ : (P a && Q a) = true := by simp [hPa, hQa]
            rw [hPQ, hPa] at h
            simpa using h
          · have hQ' : Q a = false := by simp_all
            have hPQ : (P a && Q a) = false := by simp [hQ']
            rw [hPQ, hPa] at h
            simp only [if_true, if_false, Bool.false_eq_true, Nat.add_zero] at h
            omega
        · have hP' : P a = false := by simp_all
          have hPQ : (P a && Q a) = false := by simp [hP']
          rw [hPQ, hP'] at h
          simpa using h
    · intro h
      have hl : l.countP (fun a => P a && Q a) = l.countP P :=
        ih.mpr (fun x hx => h x (List.mem_cons_of_mem a hx))
      by_cases hPa : P a = true
      · have hQa := h a (by simp) hPa
        have hPQ : (P a && Q a) = true := by simp [hPa, hQa]
        simp [hPQ, hPa, hl, hQa]
      · have hP' : P a = false := by simp_all
        have hPQ : (P a && Q a) = false := by simp [hP']
        simp [hPQ, hP', hl]

end Bas

namespace Bas.POMatch

/-- C5: for a line with a non-empty material/description query, the updated
line is MATCHED exactly when candidates were returned and the best score is
`>= 0.7`, in which case the matched-PO-line reference and score are
recorded; a returned-but-rejected best candidate yields NO_MATCH with its
score recorded; an empty candidate list yields NO_MATCH with the previously
recorded score left in place. -/
theorem line_accept_threshold (s : MatchState) (item : DoxItem)
    (cands : List POMatchRow) (hq : queryOf item ≠ "") :
    ((matchDoxItem s item cands).2.matchStatus = "MATCHED" ↔
      ∃ best rest, cands = best :: rest ∧ 7 / 10 ≤ best.matchScore)
    ∧ (∀ best rest, cands = best :: rest →
        (7 / 10 ≤ best.matchScore →
          (matchDoxItem s item cands).2 =
            { item with matchStatus := "MATCHED", matchedPOItem := some best.id,
                        matchScore := some best.matchScore })
        ∧ (best.matchScore < 7 / 10 →
          (matchDoxItem s item cands).2 =
            { item with matchStatus := "NO_MATCH",
                        matchScore := some best.matchScore }))
    ∧ (cands = [] →
        (matchDoxItem s item cands).2 = { item with matchStatus := "NO_MATCH" }) := by
  rcases cands with _ | ⟨best, rest⟩
  · refine ⟨?_, ?_, fun _ => by simp [matchDoxItem, hq]⟩
    · have hstat : (matchDoxItem s item []).2.matchStatus = "NO_MATCH" := by
        simp [matchDoxItem, hq]
      rw [hstat]
      constructor
      · intro h; exact absurd h (by decide)
      · rintro ⟨b, r, heq, -⟩; cases heq
    · intro b r heq; cases heq
  · by_cases hs : 7 / 10 ≤ best.matchScore
    · have hstat : (matchDoxItem s item (best :: rest)).2 =
          { item with matchStatus := "MATCHED", matchedPOItem := some best.id,
                      matchScore := some best.matchScore } := by
        simp [matchDoxItem, hq, hs]
      refine ⟨?_, ?_, fun heq => by cases heq⟩
      · rw [hstat]
        exact ⟨fun _ => ⟨best, rest, rfl, hs⟩, fun _ => rfl⟩
      · intro b r heq
        obtain ⟨rfl, rfl⟩ : b = best ∧ r = rest := by
          injection heq with h1 h2; exact ⟨h1.symm, h2.symm⟩
        exact ⟨fun _ => hstat, fun hlt => absurd hs (not_le.mpr hlt)⟩
    · have hstat : (matchDoxItem s item (best :: rest)).2 =
          { item with matchStatus := "NO_MATCH",
                      matchScore := some best.matchScore } := by
        simp [matchDoxItem, hq, hs]
      refine ⟨?_, ?_, fun heq => by cases heq⟩
      · rw [hstat]
        constructor
        · intro h; exact absurd h (by simp)
        · rintro ⟨b, r, heq, hge⟩
          obtain ⟨rfl, rfl⟩ : b = best ∧ r = rest := by
            injection heq with h1 h2; exact ⟨h1.symm, h2.symm⟩
          exact absurd hge hs
      · intro b r heq
        obtain ⟨rfl, rfl⟩ : b = best ∧ r = rest := by
          injection heq with h1 h2; exact ⟨h1.symm, h2.symm⟩
        exact ⟨fun hge => absurd hge hs, fun _ => hstat⟩

/-- Witness for C5 on a concrete line and candidate list. -/
theorem line_accept_threshold_witness :
    (matchDoxItem initState
      { id := "d1", lineNumber := 1, materialNumber := "MAT-1",
        description := "Steel bolt", quantity := some 5, netAmount := some 100,
        taxAmount := some 0, matchStatus := "PENDING", matchedPOItem := none,
        matchScore := none }
      [{ id := "p1", purchaseOrderItem := "00010",
         invoiceIsGoodsReceiptBased := true, grQuantityPosted := some 3,
         matchScore := 8 / 10 }]).2.matchStatus = "MATCHED" :=
  (line_accept_threshold initState _ _ (by decide)).1.mpr
    ⟨_, [], rfl, by norm_num⟩

end Bas.POMatch

namespace Bas.POMatch

/-- C8: on an existing invoice, `MatchPOItems` returns status NO_PO (without
raising an error) when neither the passed-in nor the stored PO number is
usable, and status NO_ITEMS with `matchedItems = 0` (again without error)
when a PO number exists but there are no extracted line items. -/
theorem match_early_returns (poParam headerPO : Option String)
    (inputs : List (DoxItem × List POMatchRow)) :
    (truthyStr (jsOrStr poParam headerPO) = false →
      runMatchPOItems poParam headerPO inputs = noPOResult ∧
      noPOResult.status = "NO_PO" ∧ noPOResult.matchedItems = 0)
    ∧ (truthyStr (jsOrStr poParam headerPO) = true → inputs = [] →
      runMatchPOItems poParam headerPO inputs = noItemsResult ∧
      noItemsResult.status = "NO_ITEMS" ∧ noItemsResult.matchedItems = 0) := by
  constructor
  · intro hfalse
    refine ⟨?_, rfl, rfl⟩
    unfold runMatchPOItems
    rw [hfalse]
    simp
  · intro htrue hnil
    refine ⟨?_, rfl, rfl⟩
    subst hnil
    unfold runMatchPOItems
    rw [htrue]
    simp

/-- Witness for C8: both early returns at concrete inputs. -/
theorem match_early_returns_witness :
    runMatchPOItems none none [] = noPOResult ∧
    runMatchPOItems (some "4500000001") none [] = noItemsResult :=
  ⟨((match_early_returns none none []).1 rfl).1,
   ((match_early_returns (some "4500000001") none []).2 (by decide) rfl).1⟩

end Bas.POMatch

namespace Bas.Validate

open Bas.POMatch (DoxItem)

/-- C6: `ValidateInvoice` is idempotent — the snapshot it writes back
(`step`/`status`/`message`) is disjoint from every field it reads, so a
second run on the updated header returns the identical result record (in
particular identical `errorCount`, `warningCount` and `status`); all other
header fields are untouched, and exactly one audit-log entry is emitted. -/
theorem validate_invoice_idempotent (h : Header) (items : List DoxItem) :
    (validateInvoice (applyValidationUpdate h (validateInvoice h items)) items
      = validateInvoice h items)
    ∧ (∀ v : VResult,
        (applyValidationUpdate h v).matchedSupplierNumber = h.matchedSupplierNumber
        ∧ (applyValidationUpdate h v).matchedSupplierName = h.matchedSupplierName
        ∧ (applyValidationUpdate h v).supplier = h.supplier
        ∧ (applyValidationUpdate h v).supplierName = h.supplierName
        ∧ (applyValidationUpdate h v).supplierMatchScore = h.supplierMatchScore
        ∧ (applyValidationUpdate h v).supplierMatchStatus = h.supplierMatchStatus
        ∧ (applyValidationUpdate h v).netAmount = h.netAmount
        ∧ (applyValidationUpdate h v).grossAmount = h.grossAmount
        ∧ (applyValidationUpdate h v).currencyCode = h.currencyCode
        ∧ (applyValidationUpdate h v).documentDate = h.documentDate
        ∧ (applyValidationUpdate h v).companyCode = h.companyCode
        ∧ (applyValidationUpdate h v).purchaseOrderNumber = h.purchaseOrderNumber
        ∧ (applyValidationUpdate h v).threeWayMatchRequired = h.threeWayMatchRequired
        ∧ (applyValidationUpdate h v).grCheckPassed = h.grCheckPassed
        ∧ (applyValidationUpdate h v).threeWayMatchStatus = h.threeWayMatchStatus)
    ∧ (validateInvoiceOp h items).2.2.length = 1 := by
  refine ⟨rfl, ?_, rfl⟩
  intro v
  refine ⟨rfl, rfl, rfl, rfl, rfl, rfl, rfl, rfl, rfl, rfl, rfl, rfl, rfl, rfl, rfl⟩

/-- C10: a successful MANUAL supplier selection writes the zero-padded
supplier number, a match score of exactly 1.0 and status MANUAL, so the
validator's supplier category can subsequently produce neither the
unmatched ERROR nor the low-confidence (score < 0.7) WARNING. -/
theorem manual_selection_never_low_confidence (h : Header) (num : String)
    (nm : Option String) (hnum : num ≠ "") (items : List DoxItem) :
    (applyManualSelection h num nm).matchedSupplierNumber
        = some (padStart 10 '0' num)
    ∧ (applyManualSelection h num nm).supplierMatchScore = some 1
    ∧ (applyManualSelection h num nm).supplierMatchStatus = some "MANUAL"
    ∧ supplierChecks (applyManualSelection h num nm) = []
    ∧ (validateInvoice (applyManualSelection h num nm) items).supplierValidation.errors = []
    ∧ (validateInvoice (applyManualSelection h num nm) items).supplierValidation.warnings = [] := by
  have hpad : padStart 10 '0' num ≠ "" := by
    intro hcontra
    apply hnum
    have hdata : List.replicate (10 - num.length) '0' ++ num.data = [] :=
      congrArg String.data hcontra
    have hd : num.data = [] := (List.append_eq_nil.mp hdata).2
    cases num
    simp_all
  have hsup : supplierChecks (applyManualSelection h num nm) = [] := by
    norm_num [supplierChecks, applyManualSelection, truthyStr, supplierScoreLow, hpad]
  refine ⟨rfl, rfl, rfl, hsup, ?_, ?_⟩ <;>
    simp [validateInvoice, mkCategory, hsup]

/-- Witness for C10 at a concrete header and supplier number. -/
theorem manual_selection_witness :
    (applyManualSelection
      { matchedSupplierNumber := none, matchedSupplierName := none,
        supplier := none, supplierName := none, supplierMatchScore := none,
        supplierMatchStatus := none, netAmount := some 100,
        grossAmount := some 119, currencyCode := some "EUR",
        documentDate := some "2024-05-01", companyCode := some "1000",
        purchaseOrderNumber := none, threeWayMatchRequired := false,
        grCheckPassed := false, threeWayMatchStatus := none,
        step := none, status := none, message := none }
      "12345" (some "ACME Corp")).matchedSupplierNumber
    = some "0000012345" := by
  have h := manual_selection_never_low_confidence
    { matchedSupplierNumber := none, matchedSupplierName := none,
      supplier := none, supplierName := none, supplierMatchScore := none,
      supplierMatchStatus := none, netAmount := some 100,
      grossAmount := some 119, currencyCode := some "EUR",
      documentDate := some "2024-05-01", companyCode := some "1000",
      purchaseOrderNumber := none, threeWayMatchRequired := false,
      grCheckPassed := false, threeWayMatchStatus := none,
      step := none, status := none, message := none }
    "12345" (some "ACME Corp") (by decide) []
  rw [h.1]
  rfl

end Bas.Validate

namespace Bas.Validate

open Bas.POMatch (DoxItem)

/-- C7 (amended): both validators evaluate the PO check only when a PO
number is present.  `ValidateInvoice` appends the ERROR only for a
non-empty line set with zero matches, and the WARNING exactly when some but
not all lines matched; `ValidateForPosting` appends the zero-matched ERROR
whenever zero lines matched — including an empty line set — and the same
partial-match WARNING. -/
theorem po_check_severities (h : Header) (items : List DoxItem) :
    (truthyStr h.purchaseOrderNumber = false →
      poChecks h items = [] ∧ postingPOChecks h items = [])
    ∧ (truthyStr h.purchaseOrderNumber = true →
      ((∃ e ∈ poChecks h items, e.severity = "ERROR") ↔
        matchedCountOf items = 0 ∧ items ≠ [])
      ∧ ((∃ e ∈ poChecks h items, e.severity = "WARNING") ↔
        0 < matchedCountOf items ∧ matchedCountOf items < items.length)
      ∧ ((∃ e ∈ postingPOChecks h items, e.field = "poItems" ∧ e.severity = "ERROR") ↔
        matchedCountOf items = 0)
      ∧ ((∃ e ∈ postingPOChecks h items, e.severity = "WARNING") ↔
        0 < matchedCountOf items ∧ matchedCountOf items < items.length)) := by
  have hmle : matchedCountOf items ≤ items.length := by
    unfold matchedCountOf
    simpa using List.length_filter_le _ items
  constructor
  · intro hfalse
    unfold poChecks postingPOChecks
    rw [hfalse]
    simp
  · intro htrue
    have hne : (items ≠ []) ↔ 0 < items.length := by
      cases items <;> simp
    unfold poChecks postingPOChecks
    rw [htrue]
    simp only [Bool.true_and, if_true]
    refine ⟨?_, ?_, ?_, ?_⟩
    · by_cases h0 : matchedCountOf items = 0 ∧ 0 < items.length
      · rw [if_pos h0]
        simp only [List.mem_singleton]
        constructor
        · intro _; exact ⟨h0.1, hne.mpr h0.2⟩
        · intro _; exact ⟨_, rfl, rfl⟩
      · rw [if_neg h0]
        constructor
        · by_cases hlt : matchedCountOf items < items.length
          · rw [if_pos hlt]
            rintro ⟨e, he, hsev⟩
            simp only [List.mem_singleton] at he
            subst he
            exact absurd hsev (by simp)
          · rw [if_neg hlt]
            rintro ⟨e, he, -⟩
            cases he
        · rintro ⟨hm0, hnem⟩
          exact absurd ⟨hm0, hne.mp hnem⟩ h0
    · by_cases h0 : matchedCountOf items = 0 ∧ 0 < items.length
      · rw [if_pos h0]
        simp only [List.mem_singleton]
        constructor
        · rintro ⟨e, he, hsev⟩
          subst he
          exact absurd hsev (by simp)
        · rintro ⟨hpos, -⟩
          omega
      · rw [if_neg h0]
        by_cases hlt : matchedCountOf items < items.length
        · rw [if_pos hlt]
          simp only [List.mem_singleton]
          constructor
          · intro _
            refine ⟨?_, hlt⟩
            by_contra hz
            exact h0 ⟨by omega, by omega⟩
          · intro _; exact ⟨_, rfl, rfl⟩
        · rw [if_neg hlt]
          constructor
          · rintro ⟨e, he, -⟩; cases he
          · rintro ⟨-, hlt'⟩; exact absurd hlt' hlt
    · by_cases h0 : matchedCountOf items = 0
      · rw [if_pos h0]
        constructor
        · intro _; exact h0
        · intro _
          exact ⟨_, List.mem_append_left _ (List.mem_singleton.mpr rfl), rfl, rfl⟩
      · rw [if_neg h0]
        constructor
        · by_cases hlt : matchedCountOf items < items.length
          · rw [if_pos hlt]
            rintro ⟨e, he, hfld, hsev⟩
            rcases List.mem_append.mp he with h1 | h2
            · simp only [List.mem_singleton] at h1
              subst h1
              exact absurd hsev (by simp)
            · by_cases hgr : (h.threeWayMatchRequired && !h.grCheckPassed) = true
              · rw [if_pos hgr] at h2
                simp only [List.mem_singleton] at h2
                subst h2
                exact absurd hfld (by simp)
              · rw [if_neg hgr] at h2
                cases h2
          · rw [if_neg hlt]
            rintro ⟨e, he, hfld, hsev⟩
            rcases List.mem_append.mp he with h1 | h2
            · cases h1
            · by_cases hgr : (h.threeWayMatchRequired && !h.grCheckPassed) = true
              · rw [if_pos hgr] at h2
                simp only [List.mem_singleton] at h2
                subst h2
                exact absurd hfld (by simp)
              · rw [if_neg hgr] at h2
                cases h2
        · intro hz; exact absurd hz h0
    · by_cases h0 : matchedCountOf items = 0
      · rw [if_pos h0]
        constructor
        · rintro ⟨e, he, hsev⟩
          rcases List.mem_append.mp he with h1 | h2
          · simp only [List.mem_singleton] at h1
            subst h1
            exact absurd hsev (by simp)
          · by_cases hgr : (h.threeWayMatchRequired && !h.grCheckPassed) = true
            · rw [if_pos hgr] at h2
              simp only [List.mem_singleton] at h2
              subst h2
              exact absurd hsev (by simp)
            · rw [if_neg hgr] at h2
              cases h2
        · rintro ⟨hpos, -⟩; omega
      · rw [if_neg h0]
        by_cases hlt : matchedCountOf items < items.length
        · rw [if_pos hlt]
          constructor
          · intro _
            exact ⟨by omega, hlt⟩
          · intro _
            exact ⟨_, List.mem_append_left _ (List.mem_singleton.mpr rfl), rfl⟩
        · rw [if_neg hlt]
          constructor
          · rintro ⟨e, he, hsev⟩
            rcases List.mem_append.mp he with h1 | h2
            · cases h1
            · by_cases hgr : (h.threeWayMatchRequired && !h.grCheckPassed) = true
              · rw [if_pos hgr] at h2
                simp only [List.mem_singleton] at h2
                subst h2
                exact absurd hsev (by simp)
              · rw [if_neg hgr] at h2
                cases h2
          · rintro ⟨-, hlt'⟩; exact absurd hlt' hlt

/-- Witness for C7's amended statement at concrete inputs: with a PO number
and one unmatched line, `ValidateInvoice` has a PO-check ERROR. -/
theorem po_check_severities_witness :
    ∃ e ∈ poChecks
      { matchedSupplierNumber := none, matchedSupplierName := none,
        supplier := none, supplierName := none, supplierMatchScore := none,
        supplierMatchStatus := none, netAmount := some 100,
        grossAmount := some 119, currencyCode := some "EUR",
        documentDate := some "2024-05-01", companyCode := some "1000",
        purchaseOrderNumber := some "4500000001", threeWayMatchRequired := false,
        grCheckPassed := false, threeWayMatchStatus := none,
        step := none, status := none, message := none }
      [{ id := "d1", lineNumber := 1, materialNumber := "MAT-1",
         description := "Steel bolt", quantity := some 5, netAmount := some 100,
         taxAmount := some 0, matchStatus := "NO_MATCH", matchedPOItem := none,
         matchScore := none }], e.severity = "ERROR" :=
  (((po_check_severities _ _).2 (by decide)).1).mpr ⟨by decide, by decide⟩

/-- C7 counterexample: on an invoice with a PO number and an *empty* line
set, `ValidateForPosting` still appends the zero-matched ERROR entry, so
the claim's "out of a non-empty line set" qualification fails for this
validator. -/
theorem po_check_counterexample :
    (validateForPostingErrors
      { matchedSupplierNumber := some "0000012345",
        matchedSupplierName := some "ACME Corp",
        supplier := some "0000012345", supplierName := some "ACME Corp",
        supplierMatchScore := some 1, supplierMatchStatus := some "MATCHED",
        netAmount := some 100, grossAmount := some 119,
        currencyCode := some "EUR", documentDate := some "2024-05-01",
        companyCode := some "1000", purchaseOrderNumber := some "4500000001",
        threeWayMatchRequired := false, grCheckPassed := false,
        threeWayMatchStatus := none, step := none, status := none,
        message := none }
      []) =
      [{ field := "poItems", message := "No DOX items matched to PO items",
         severity := "ERROR" }]
    ∧ ([] : List DoxItem).length = 0 := ⟨by with_unfolding_all rfl, rfl⟩

end Bas.Validate

namespace Bas

/-- Converting an already-converted value is the identity on the numeric
reading. -/
theorem toNumberOr0_toNumber (d : ℕ) (v : Option ℚ) :
    toNumberOr0 d (toNumber d v) = toNumberOr0 d v := by
  cases v with
  | none => rfl
  | some q =>
    have h1 : toNumber d (some q) = some ((round (q * 10 ^ d) : ℚ) / 10 ^ d) := rfl
    calc toNumberOr0 d (toNumber d (some q))
        = toNumberOr0 d (some ((round (q * 10 ^ d) : ℚ) / 10 ^ d)) := by rw [h1]
      _ = (round (q * 10 ^ d) : ℚ) / 10 ^ d :=
          toNumberOr0_fixed ⟨round (q * 10 ^ d), rfl⟩
      _ = toNumberOr0 d (some q) := rfl

/-- The sum of converted GR quantities stays at scale `d`. -/
theorem decScale_sum_toNumberOr0 (d : ℕ) (grs : List (Option ℚ)) :
    DecScale d ((grs.map (toNumberOr0 d)).sum) := by
  induction grs with
  | nil => exact decScale_zero d
  | cons a rest ih =>
    rw [List.map_cons, List.sum_cons]
    exact decScale_add (decScale_toNumberOr0 d a) ih

end Bas

namespace Bas.POMatch

/-- Unrolled effect of a non-empty run of `UpsertGRSnapshots` updates on a
cached PO line whose `GrQuantityPosted` holds a scale-3 value `g`. -/
theorem foldl_applyGRSnapshot (raw : Option ℚ) (g : ℚ) (hg : DecScale 3 g)
    (open0 : Option ℚ) (grs : List (Option ℚ)) (hne : grs ≠ []) :
    grs.foldl applyGRSnapshot
      { orderQuantity := toNumber 3 raw, openQuantity := open0,
        grQuantityPosted := some g } =
      { orderQuantity := toNumber 3 raw
        openQuantity := some (toNumberOr0 3 raw - (g + (grs.map (toNumberOr0 3)).sum))
        grQuantityPosted := some (g + (grs.map (toNumberOr0 3)).sum) } := by
  induction grs generalizing g open0 with
  | nil => cases hne rfl
  | cons a rest ih =>
    have hstep : applyGRSnapshot
        { orderQuantity := toNumber 3 raw, openQuantity := open0,
          grQuantityPosted := some g } a =
        { orderQuantity := toNumber 3 raw
          openQuantity := some (toNumberOr0 3 raw - (g + toNumberOr0 3 a))
          grQuantityPosted := some (g + toNumberOr0 3 a) } := by
      simp [applyGRSnapshot, toNumberOr0_fixed hg, toNumberOr0_toNumber]
    rw [List.foldl_cons, hstep]
    rcases eq_or_ne rest [] with rfl | hrest
    · simp
    · rw [ih (g + toNumberOr0 3 a) (decScale_add hg (decScale_toNumberOr0 3 a)) _ hrest]
      simp [add_assoc]

/-- C9: a freshly cached PO line starts with `OpenQuantity = OrderQuantity`
and `GrQuantityPosted = 0`, and after any non-empty sequence of GR snapshot
updates the stored `GrQuantityPosted` is the cumulative sum of the incoming
quantities while the stored `OpenQuantity` equals the ordered quantity
minus that cumulative total. -/
theorem gr_snapshot_open_quantity (raw : Option ℚ) (grs : List (Option ℚ))
    (hne : grs ≠ []) :
    ((mapPOItemQty raw).openQuantity = (mapPOItemQty raw).orderQuantity
      ∧ (mapPOItemQty raw).grQuantityPosted = some 0)
    ∧ (grs.foldl applyGRSnapshot (mapPOItemQty raw)).grQuantityPosted
        = some ((grs.map (toNumberOr0 3)).sum)
    ∧ (grs.foldl applyGRSnapshot (mapPOItemQty raw)).openQuantity
        = some (toNumberOr0 3 (grs.foldl applyGRSnapshot (mapPOItemQty raw)).orderQuantity
            - toNumberOr0 3 (grs.foldl applyGRSnapshot (mapPOItemQty raw)).grQuantityPosted) := by
  have hfold := foldl_applyGRSnapshot raw 0 (decScale_zero 3) (toNumber 3 raw) grs hne
  have hmap : mapPOItemQty raw =
      { orderQuantity := toNumber 3 raw, openQuantity := toNumber 3 raw,
        grQuantityPosted := some 0 } := rfl
  rw [hmap] at *
  refine ⟨⟨rfl, rfl⟩, ?_, ?_⟩
  · rw [hfold]
    simp
  · rw [hfold]
    simp only []
    rw [toNumberOr0_toNumber,
      toNumberOr0_fixed (decScale_add (decScale_zero 3) (decScale_sum_toNumberOr0 3 grs))]

/-- Witness for C9: order quantity 10, two GR snapshots of 4 and 3 leave
`GrQuantityPosted = 7` and `OpenQuantity = 3`. -/
theorem gr_snapshot_witness :
    ([some (4 : ℚ), some 3].foldl applyGRSnapshot (mapPOItemQty (some 10))).grQuantityPosted
      = some 7
    ∧ ([some (4 : ℚ), some 3].foldl applyGRSnapshot (mapPOItemQty (some 10))).openQuantity
      = some 3 := by
  have h := gr_snapshot_open_quantity (some 10) [some (4 : ℚ), some 3] (by simp)
  have h4 : toNumberOr0 3 (some (4 : ℚ)) = 4 := toNumberOr0_fixed ⟨4000, by norm_num⟩
  have h3 : toNumberOr0 3 (some (3 : ℚ)) = 3 := toNumberOr0_fixed ⟨3000, by norm_num⟩
  have h10 : toNumber 3 (some (10 : ℚ)) = some 10 := toNumber_fixed ⟨10000, by norm_num⟩
  have h7 : toNumberOr0 3 (some (7 : ℚ)) = 7 := toNumberOr0_fixed ⟨7000, by norm_num⟩
  have hgr : ([some (4 : ℚ), some 3].foldl applyGRSnapshot (mapPOItemQty (some 10))).grQuantityPosted
      = some 7 := by
    rw [h.2.1]
    norm_num [h4, h3]
  refine ⟨hgr, ?_⟩
  rw [h.2.2, hgr]
  have hmap : mapPOItemQty (some 10) =
      { orderQuantity := toNumber 3 (some 10), openQuantity := toNumber 3 (some 10),
        grQuantityPosted := some 0 } := rfl
  have hord : ([some (4 : ℚ), some 3].foldl applyGRSnapshot (mapPOItemQty (some 10))).orderQuantity
      = some 10 := by
    rw [hmap, foldl_applyGRSnapshot (some 10) 0 (decScale_zero 3) (toNumber 3 (some 10))
      [some (4 : ℚ), some 3] (by simp), h10]
  rw [hord, h7]
  norm_num [toNumberOr0, h10]

end Bas.POMatch

namespace Bas.POMatch

/-- Effect of one loop iteration on the aggregate counters, phrased through
the acceptance predicates. -/
theorem matchDoxItem_state (s : MatchState) (item : DoxItem) (cands : List POMatchRow) :
    ((matchDoxItem s item cands).1.matchedCount
        = s.matchedCount + (if lineAccepted (item, cands) then 1 else 0))
    ∧ ((matchDoxItem s item cands).1.grChecksRequired
        = s.grChecksRequired + (if lineAcceptedGR (item, cands) then 1 else 0))
    ∧ ((matchDoxItem s item cands).1.grChecksPassed
        = s.grChecksPassed +
          (if lineAcceptedGR (item, cands) && lineGRReceived (item, cands) then 1 else 0))
    ∧ ((matchDoxItem s item cands).1.threeWayMatchRequired
        = (s.threeWayMatchRequired || lineAcceptedGR (item, cands))) := by
  by_cases hq : queryOf item = ""
  · have hacc : lineAccepted (item, cands) = false := by simp [lineAccepted, hq]
    have haccGR : lineAcceptedGR (item, cands) = false := by simp [lineAcceptedGR, hacc]
    simp [matchDoxItem, hq, hacc, haccGR]
  · rcases cands with _ | ⟨best, rest⟩
    · have hacc : lineAccepted (item, ([] : List POMatchRow)) = false := by
        simp [lineAccepted]
      have haccGR : lineAcceptedGR (item, ([] : List POMatchRow)) = false := by
        simp [lineAcceptedGR, hacc]
      simp [matchDoxItem, hq, hacc, haccGR]
    · by_cases hs : 7 / 10 ≤ best.matchScore
      · have hacc : lineAccepted (item, best :: rest) = true := by
          simp [lineAccepted, hq, hs]
        by_cases hgr : best.invoiceIsGoodsReceiptBased = true
        · have haccGR : lineAcceptedGR (item, best :: rest) = true := by
            simp [lineAcceptedGR, hacc, hgr]
          by_cases hrec : 0 < toNumberOr0 3 best.grQuantityPosted
          · have hrc : lineGRReceived (item, best :: rest) = true := by
              simp [lineGRReceived, hrec]
            simp [matchDoxItem, hq, hs, hgr, hrec, hacc, haccGR, hrc]
          · have hrc : lineGRReceived (item, best :: rest) = false := by
              simp [lineGRReceived, hrec]
            simp [matchDoxItem, hq, hs, hgr, hrec, hacc, haccGR, hrc]
        · have hgr' : best.invoiceIsGoodsReceiptBased = false := by simp_all
          have haccGR : lineAcceptedGR (item, best :: rest) = false := by
            simp [lineAcceptedGR, hgr']
          simp [matchDoxItem, hq, hs, hgr', hacc, haccGR]
      · have hacc : lineAccepted (item, best :: rest) = false := by
          simp [lineAccepted, hs]
        have haccGR : lineAcceptedGR (item, best :: rest) = false := by
          simp [lineAcceptedGR, hacc]
        simp [matchDoxItem, hq, hs, hacc, haccGR]

/-- Aggregate counters after the whole matching loop. -/
theorem runMatchPassAux_state (inputs : List (DoxItem × List POMatchRow))
    (s : MatchState) :
    ((runMatchPassAux s inputs).1.matchedCount
        = s.matchedCount + inputs.countP lineAccepted)
    ∧ ((runMatchPassAux s inputs).1.grChecksRequired
        = s.grChecksRequired + inputs.countP lineAcceptedGR)
    ∧ ((runMatchPassAux s inputs).1.grChecksPassed
        = s.grChecksPassed
          + inputs.countP (fun p => lineAcceptedGR p && lineGRReceived p))
    ∧ ((runMatchPassAux s inputs).1.threeWayMatchRequired
        = (s.threeWayMatchRequired || inputs.any lineAcceptedGR)) := by
  induction inputs generalizing s with
  | nil => simp [runMatchPassAux]
  | cons p rest ih =>
    rcases p with ⟨item, cands⟩
    have hstep := matchDoxItem_state s item cands
    have hrec := ih (matchDoxItem s item cands).1
    have hfst : (runMatchPassAux s ((item, cands) :: rest)).1
        = (runMatchPassAux (matchDoxItem s item cands).1 rest).1 := rfl
    rw [hfst]
    refine ⟨?_, ?_, ?_, ?_⟩
    · rw [hrec.1, hstep.1, List.countP_cons]
      omega
    · rw [hrec.2.1, hstep.2.1, List.countP_cons]
      omega
    · rw [hrec.2.2.1, hstep.2.2.1, List.countP_cons]
      omega
    · rw [hrec.2.2.2, hstep.2.2.2, List.any_cons, Bool.or_assoc]

/-- C1: after the matching pass, three-way match is required iff some line
was accepted as MATCHED against a goods-receipt-based PO line, and it passes
iff it is not required or (every accepted GR-based line has positive
received-quantity-to-date and at least one such line exists). -/
theorem three_way_match_evaluation (inputs : List (DoxItem × List POMatchRow)) :
    ((runMatchPass inputs).1.threeWayMatchRequired = true ↔
      ∃ p ∈ inputs, lineAcceptedGR p = true)
    ∧ (threeWayMatchPassed (runMatchPass inputs).1 = true ↔
      ((runMatchPass inputs).1.threeWayMatchRequired = false ∨
        ((∀ p ∈ inputs, lineAcceptedGR p = true → lineGRReceived p = true)
          ∧ ∃ p ∈ inputs, lineAcceptedGR p = true))) := by
  have hst := runMatchPassAux_state inputs initState
  have hreq : (runMatchPass inputs).1.grChecksRequired
      = inputs.countP lineAcceptedGR := by
    have := hst.2.1
    simpa [initState, runMatchPass] using this
  have hpassed : (runMatchPass inputs).1.grChecksPassed
      = inputs.countP (fun p => lineAcceptedGR p && lineGRReceived p) := by
    have := hst.2.2.1
    simpa [initState, runMatchPass] using this
  have h3w : (runMatchPass inputs).1.threeWayMatchRequired
      = inputs.any lineAcceptedGR := by
    have := hst.2.2.2
    simpa [initState, runMatchPass] using this
  constructor
  · rw [h3w]
    exact List.any_eq_true
  · unfold threeWayMatchPassed
    rw [h3w, hreq, hpassed]
    by_cases hany : inputs.any lineAcceptedGR = true
    · rw [hany]
      simp only [Bool.not_true, Bool.false_or, Bool.and_eq_true, beq_iff_eq,
        decide_eq_true_eq, Bool.true_eq_false, false_or]
      constructor
      · rintro ⟨hbeq, -⟩
        exact ⟨(countP_and_eq_countP _ _ _).mp hbeq, List.any_eq_true.mp hany⟩
      · rintro ⟨hall, hex⟩
        exact ⟨(countP_and_eq_countP _ _ _).mpr hall, List.countP_pos_iff.mpr hex⟩
    · have hany' : inputs.any lineAcceptedGR = false := by simp_all
      rw [hany']
      simp

end Bas.POMatch

namespace Bas.POMatch

/-- A matched line's reference is `some` of its grouping key. -/
theorem matchedPOItem_eq_keyOf {l : DoxItem} (h : isMatchedLine l = true) :
    l.matchedPOItem = some (keyOf l) := by
  unfold isMatchedLine at h
  rcases hk : l.matchedPOItem with _ | k
  · rw [hk] at h
    simp at h
  · unfold keyOf
    rw [hk]
    rfl

/-- Consolidation only rewrites quantity/amounts/description. -/
theorem consolidatedLine_fields (g : List DoxItem) (keep : DoxItem) :
    (consolidatedLine g keep).matchStatus = keep.matchStatus
    ∧ (consolidatedLine g keep).matchedPOItem = keep.matchedPOItem
    ∧ (consolidatedLine g keep).id = keep.id :=
  ⟨rfl, rfl, rfl⟩

/-- `consolMap` never changes a surviving line's match status or key. -/
theorem consolMap_preserves (matched : List DoxItem) (x y : DoxItem)
    (h : consolMap matched x = some y) :
    keyOf y = keyOf x ∧ isMatchedLine y = isMatchedLine x := by
  unfold consolMap at h
  by_cases hm : isMatchedLine x = true
  · rw [if_pos hm] at h
    by_cases hg : (groupFor matched (keyOf x)).head?.map DoxItem.id = some x.id
    · rw [if_pos hg] at h
      by_cases hlen : 1 < (groupFor matched (keyOf x)).length
      · rw [if_pos hlen] at h
        injection h with h2
        subst h2
        exact ⟨rfl, rfl⟩
      · rw [if_neg hlen] at h
        injection h with h2
        subst h2
        exact ⟨rfl, rfl⟩
    · rw [if_neg hg] at h
      cases h
  · rw [if_neg hm] at h
    injection h with h2
    subst h2
    exact ⟨rfl, rfl⟩

/-- The grouping filter coincides with filtering on `keyOf` over the
matched-line list. -/
theorem groupFor_eq (ls : List DoxItem) (k : String) :
    groupFor (ls.filter isMatchedLine) k
      = (ls.filter isMatchedLine).filter (fun x => keyOf x == k) := by
  apply List.filter_congr
  intro x hx
  have hm : isMatchedLine x = true := (List.mem_filter.mp hx).2
  rw [matchedPOItem_eq_keyOf hm]
  rfl

end Bas.POMatch

namespace Bas.POMatch

/-- The post-consolidation lines matched to key `k` are exactly one
survivor: the group's first-seen member, updated when the group had
duplicates. -/
theorem consolidate_filter_key (ls : List DoxItem) (hnd : (ls.map DoxItem.id).Nodup)
    (k : String) (hd : DoxItem)
    (hg : (groupFor (ls.filter isMatchedLine) k).head? = some hd) :
    (consolidateDuplicatePOItems ls).filter (fun l => isMatchedLine l && keyOf l == k)
      = if 1 < (groupFor (ls.filter isMatchedLine) k).length
        then [consolidatedLine (groupFor (ls.filter isMatchedLine) k) hd]
        else [hd] := by
  have hndl : ls.Nodup := List.Nodup.of_map DoxItem.id hnd
  have hinj : ∀ x ∈ ls, ∀ y ∈ ls, x.id = y.id → x = y :=
    fun x hx y hy => List.inj_on_of_nodup_map hnd hx hy
  have hdg : hd ∈ groupFor (ls.filter isMatchedLine) k :=
    List.mem_of_mem_head? (by simp [hg])
  have hdg' : hd ∈ (ls.filter isMatchedLine).filter
      (fun m => m.matchedPOItem == some k) := hdg
  have hdm : hd ∈ ls.filter isMatchedLine := (List.mem_filter.mp hdg').1
  have hdkeyb : (hd.matchedPOItem == some k) = true := (List.mem_filter.mp hdg').2
  have hdmat : isMatchedLine hd = true := (List.mem_filter.mp hdm).2
  have hdls : hd ∈ ls := (List.mem_filter.mp hdm).1
  have hkeq : keyOf hd = k := by
    have h1 := matchedPOItem_eq_keyOf hdmat
    rw [h1] at hdkeyb
    exact eq_of_beq hdkeyb
  have hcm : consolMap (ls.filter isMatchedLine) hd
      = if 1 < (groupFor (ls.filter isMatchedLine) k).length
        then some (consolidatedLine (groupFor (ls.filter isMatchedLine) k) hd)
        else some hd := by
    unfold consolMap
    rw [if_pos hdmat, hkeq, if_pos (by rw [hg]; rfl)]
  have hPkhd : ∀ y : DoxItem, isMatchedLine y = true → keyOf y = k →
      (isMatchedLine y && (keyOf y == k)) = true := by
    intro y h1 h2
    rw [h1, h2]
    simp
  have hGother : ∀ x ∈ ls, x ≠ hd →
      (consolMap (ls.filter isMatchedLine) x).filter
        (fun l => isMatchedLine l && keyOf l == k) = none := by
    intro x hx hxhd
    by_cases hxm : isMatchedLine x = true
    · by_cases hxk : keyOf x = k
      · have hnone : consolMap (ls.filter isMatchedLine) x = none := by
          unfold consolMap
          rw [if_pos hxm, hxk, if_neg ?hguard]
          case hguard =>
            rw [hg]
            intro hcontra
            have h2 : some hd.id = some x.id := hcontra
            have hids : hd.id = x.id := by injection h2
            exact hxhd (hinj x hx hd hdls hids.symm)
        rw [hnone]
        rfl
      · rcases hcmx : consolMap (ls.filter isMatchedLine) x with _ | y
        · rfl
        · have hy := consolMap_preserves _ _ _ hcmx
          have hPk : (isMatchedLine y && (keyOf y == k)) = false := by
            rw [hy.1]
            have : (keyOf x == k) = false := by
              simp [hxk]
            rw [this]
            simp
          simp [Option.filter, hPk]
    · have hsome : consolMap (ls.filter isMatchedLine) x = some x := by
        unfold consolMap
        rw [if_neg hxm]
      rw [hsome]
      have hPk : (isMatchedLine x && (keyOf x == k)) = false := by
        simp only [Bool.eq_false_iff] at hxm ⊢
        intro hcontra
        exact hxm (((Bool.and_eq_true _ _).mp hcontra).1)
      simp [Option.filter, hPk]
  unfold consolidateDuplicatePOItems
  rw [List.filter_filterMap]
  by_cases hlen : 1 < (groupFor (ls.filter isMatchedLine) k).length
  · rw [if_pos hlen]
    refine filterMap_eq_singleton _ ls hndl hd _ hdls ?_ hGother
    rw [hcm, if_pos hlen]
    have hPk := hPkhd (consolidatedLine (groupFor (ls.filter isMatchedLine) k) hd)
      (by rw [show isMatchedLine (consolidatedLine _ hd) = isMatchedLine hd from rfl, hdmat])
      (by rw [show keyOf (consolidatedLine (groupFor (ls.filter isMatchedLine) k) hd)
            = keyOf hd from rfl, hkeq])
    simp [Option.filter, hPk]
  · rw [if_neg hlen]
    refine filterMap_eq_singleton _ ls hndl hd _ hdls ?_ hGother
    rw [hcm, if_neg hlen]
    have hPk := hPkhd hd hdmat hkeq
    simp [Option.filter, hPk]

end Bas.POMatch

namespace Bas.POMatch

/-- Counting first-of-key occurrences (keys outside an exclusion list `E`)
in a duplicate-free line list equals the number of distinct non-excluded
keys. -/
theorem countP_first_eq_dedup (L : List DoxItem) (hnd : L.Nodup) (E : List String) :
    L.countP (fun m => decide (keyOf m ∉ E)
        && decide ((L.filter (fun x => keyOf x == keyOf m)).head? = some m))
      = ((L.map keyOf).filter (fun x => decide (x ∉ E))).dedup.length := by
  induction L generalizing E with
  | nil => simp
  | cons a rest ih =>
    obtain ⟨hna, hndr⟩ := List.nodup_cons.mp hnd
    have hterm : (decide (keyOf a ∉ E)
        && decide (((a :: rest).filter (fun x => keyOf x == keyOf a)).head? = some a))
        = decide (keyOf a ∉ E) := by
      rw [List.filter_cons_of_pos (by simp)]
      simp
    have hpt : ∀ m ∈ rest,
        (decide (keyOf m ∉ E)
          && decide (((a :: rest).filter (fun x => keyOf x == keyOf m)).head? = some m))
        = (decide (keyOf m ∉ keyOf a :: E)
          && decide ((rest.filter (fun x => keyOf x == keyOf m)).head? = some m)) := by
      intro m hm
      by_cases hk : keyOf a = keyOf m
      · rw [List.filter_cons_of_pos (by simp [hk])]
        have h1 : decide ((a :: rest.filter
            (fun x => keyOf x == keyOf m)).head? = some m) = false := by
          simp only [List.head?_cons, decide_eq_false_iff_not]
          intro hcontra
          injection hcontra with h2
          exact hna (h2 ▸ hm)
        have h2 : decide (keyOf m ∉ keyOf a :: E) = false := by
          simp [List.mem_cons, hk.symm]
        rw [h1, h2]
        simp
      · rw [List.filter_cons_of_neg (by simp [hk])]
        have h2 : decide (keyOf m ∉ keyOf a :: E) = decide (keyOf m ∉ E) := by
          have hne : keyOf m ≠ keyOf a := fun hcontra => hk hcontra.symm
          simp [List.mem_cons, hne]
        rw [h2]
    rw [List.countP_cons, hterm,
      List.countP_congr (fun m hm => by rw [hpt m hm]), ih hndr (keyOf a :: E)]
    have hF' : (rest.map keyOf).filter (fun x => decide (x ∉ keyOf a :: E))
        = ((rest.map keyOf).filter (fun x => decide (x ∉ E))).filter
            (fun x => decide (x ≠ keyOf a)) := by
      rw [List.filter_filter]
      apply List.filter_congr
      intro x _
      by_cases hxa : x = keyOf a
      · simp [hxa]
      · by_cases hxE : x ∈ E <;> simp [hxE, hxa, List.mem_cons]
    rw [hF', List.map_cons]
    by_cases hE : keyOf a ∈ E
    · rw [if_neg (by simp [hE]), List.filter_cons_of_neg (by simp [hE])]
      have hself : ((rest.map keyOf).filter (fun x => decide (x ∉ E))).filter
          (fun x => decide (x ≠ keyOf a))
          = (rest.map keyOf).filter (fun x => decide (x ∉ E)) := by
        apply List.filter_eq_self.mpr
        intro x hx
        have hxE : x ∉ E := by
          have := (List.mem_filter.mp hx).2
          simpa using this
        have : x ≠ keyOf a := fun hcontra => hxE (hcontra ▸ hE)
        simpa using this
      rw [hself]
      omega
    · rw [if_pos (by simp [hE]), List.filter_cons_of_pos (by simp [hE])]
      have hcard : ∀ l : List String, l.dedup.length = l.toFinset.card :=
        fun l => (List.card_toFinset l).symm
      set F := (rest.map keyOf).filter (fun x => decide (x ∉ E)) with hFdef
      rw [hcard, hcard, List.toFinset_cons, List.toFinset_filter]
      have herase : F.toFinset.filter (fun x => decide (x ≠ keyOf a) = true)
          = F.toFinset.erase (keyOf a) := by
        ext x
        simp only [Finset.mem_filter, Finset.mem_erase, decide_eq_true_eq]
        constructor
        · rintro ⟨h1, h2⟩; exact ⟨h2, h1⟩
        · rintro ⟨h1, h2⟩; exact ⟨h2, h1⟩
      rw [herase]
      by_cases hmem : keyOf a ∈ F.toFinset
      · rw [Finset.insert_eq_self.mpr hmem, Finset.card_erase_of_mem hmem]
        have hpos : 0 < F.toFinset.card := Finset.card_pos.mpr ⟨keyOf a, hmem⟩
        omega
      · rw [Finset.card_insert_of_not_mem hmem, Finset.erase_eq_of_not_mem hmem]

end Bas.POMatch

namespace Bas

/-- Sum of `(· - 1)` over a list of positive naturals. -/
theorem sum_map_sub_one (l : List ℕ) (h : ∀ x ∈ l, 1 ≤ x) :
    (l.map (fun x => x - 1)).sum = l.sum - l.length ∧ l.length ≤ l.sum := by
  induction l with
  | nil => simp
  | cons a t ih =>
    obtain ⟨ih1, ih2⟩ := ih (fun x hx => h x (by simp [hx]))
    have ha : 1 ≤ a := h a (by simp)
    refine ⟨?_, ?_⟩
    · simp only [List.map_cons, List.sum_cons, List.length_cons, ih1]
      omega
    · simp only [List.sum_cons, List.length_cons]
      omega

end Bas

namespace Bas.POMatch

/-- The group sizes over the distinct keys add up to the number of matched
lines. -/
theorem sum_group_sizes (ls : List DoxItem) :
    ((matchedKeys ls).map
        (fun k => (groupFor (ls.filter isMatchedLine) k).length)).sum
      = (ls.filter isMatchedLine).length := by
  have hlen : ∀ k, (groupFor (ls.filter isMatchedLine) k).length
      = ((ls.filter isMatchedLine).map keyOf).count k := by
    intro k
    rw [groupFor_eq, List.count_eq_countP, List.countP_map,
      ← List.countP_eq_length_filter]
    exact List.countP_congr (fun x _ => by simp)
  rw [List.map_congr_left (fun k _ => hlen k)]
  have := List.sum_map_count_dedup_eq_length ((ls.filter isMatchedLine).map keyOf)
  rw [show matchedKeys ls = ((ls.filter isMatchedLine).map keyOf).dedup from rfl, this,
    List.length_map]

/-- Every consolidation group is non-empty. -/
theorem one_le_group_length (ls : List DoxItem) (k : String)
    (hk : k ∈ matchedKeys ls) :
    1 ≤ (groupFor (ls.filter isMatchedLine) k).length := by
  have hk' : k ∈ (ls.filter isMatchedLine).map keyOf := List.mem_dedup.mp hk
  obtain ⟨m, hm, hkm⟩ := List.mem_map.mp hk'
  have hmm : m ∈ groupFor (ls.filter isMatchedLine) k := by
    rw [groupFor_eq]
    exact List.mem_filter.mpr ⟨hm, by simp [hkm]⟩
  calc 1 ≤ 1 := le_refl 1
    _ ≤ (groupFor (ls.filter isMatchedLine) k).length :=
        List.length_pos.mpr (List.ne_nil_of_mem hmm)

/-- The per-group deletion count in terms of matched lines and distinct
keys. -/
theorem deletedPerGroupSum_eq (ls : List DoxItem) :
    deletedPerGroupSum ls
      = (ls.filter isMatchedLine).length - (matchedKeys ls).length := by
  unfold deletedPerGroupSum
  have hmm : (matchedKeys ls).map
      (fun k => (groupFor (ls.filter isMatchedLine) k).length - 1)
      = ((matchedKeys ls).map
          (fun k => (groupFor (ls.filter isMatchedLine) k).length)).map
          (fun x => x - 1) := by
    rw [List.map_map]
    rfl
  rw [hmm]
  have hpos : ∀ x ∈ (matchedKeys ls).map
      (fun k => (groupFor (ls.filter isMatchedLine) k).length), 1 ≤ x := by
    intro x hx
    obtain ⟨k, hk, hkx⟩ := List.mem_map.mp hx
    rw [← hkx]
    exact one_le_group_length ls k hk
  rw [(sum_map_sub_one _ hpos).1, sum_group_sizes, List.length_map]

/-- C2's line-count identity: consolidation deletes exactly
`sum over groups of (size - 1)` rows. -/
theorem consolidate_length (ls : List DoxItem)
    (hnd : (ls.map DoxItem.id).Nodup) :
    (consolidateDuplicatePOItems ls).length = ls.length - deletedPerGroupSum ls := by
  have hndl : ls.Nodup := List.Nodup.of_map DoxItem.id hnd
  have hndm : (ls.filter isMatchedLine).Nodup := hndl.filter _
  have hinj : ∀ x ∈ ls, ∀ y ∈ ls, x.id = y.id → x = y :=
    fun x hx y hy => List.inj_on_of_nodup_map hnd hx hy
  have hmsub : ∀ x ∈ ls.filter isMatchedLine, x ∈ ls :=
    fun x hx => (List.mem_filter.mp hx).1
  -- the complement of survival is "matched and not first of its group"
  have hdrop : ∀ l ∈ ls,
      (decide ¬((consolMap (ls.filter isMatchedLine) l).isSome = true))
        = (isMatchedLine l
            && !(decide ((groupFor (ls.filter isMatchedLine) (keyOf l)).head?.map
                  DoxItem.id = some l.id))) := by
    intro l _
    by_cases hm : isMatchedLine l = true
    · by_cases hg : (groupFor (ls.filter isMatchedLine) (keyOf l)).head?.map
          DoxItem.id = some l.id
      · have hsome : (consolMap (ls.filter isMatchedLine) l).isSome = true := by
          unfold consolMap
          rw [if_pos hm, if_pos hg]
          by_cases hlen : 1 < (groupFor (ls.filter isMatchedLine) (keyOf l)).length
          · rw [if_pos hlen]; rfl
          · rw [if_neg hlen]; rfl
        simp [hsome, hm, hg]
      · have hnone : consolMap (ls.filter isMatchedLine) l = none := by
          unfold consolMap
          rw [if_pos hm, if_neg hg]
        simp [hnone, hm, hg]
    · have hsome : consolMap (ls.filter isMatchedLine) l = some l := by
        unfold consolMap
        rw [if_neg hm]
      simp [hsome, hm]
  -- total split of ls by survival
  have hsplit := List.length_eq_countP_add_countP
    (fun l => (consolMap (ls.filter isMatchedLine) l).isSome) ls
  have hcong : ls.countP
      (fun a => decide ¬((consolMap (ls.filter isMatchedLine) a).isSome = true))
      = ls.countP (fun l => isMatchedLine l
          && !(decide ((groupFor (ls.filter isMatchedLine) (keyOf l)).head?.map
                DoxItem.id = some l.id))) :=
    List.countP_congr (fun l hl => by rw [hdrop l hl])
  rw [hcong] at hsplit
  -- dropped lines counted inside the matched sublist
  have hdropped : ls.countP (fun l => isMatchedLine l
        && !(decide ((groupFor (ls.filter isMatchedLine) (keyOf l)).head?.map
              DoxItem.id = some l.id)))
      = (ls.filter isMatchedLine).countP
          (fun l => !(decide ((groupFor (ls.filter isMatchedLine) (keyOf l)).head?.map
              DoxItem.id = some l.id))) := by
    rw [List.countP_filter]
    exact List.countP_congr (fun l _ => by rw [Bool.and_comm])
  -- first-of-group guard in element form
  have hguard : ∀ l ∈ ls.filter isMatchedLine,
      (decide ((groupFor (ls.filter isMatchedLine) (keyOf l)).head?.map
          DoxItem.id = some l.id))
        = (decide (keyOf l ∉ ([] : List String))
            && decide (((ls.filter isMatchedLine).filter
                (fun x => keyOf x == keyOf l)).head? = some l)) := by
    intro l hl
    have hiff : ((groupFor (ls.filter isMatchedLine) (keyOf l)).head?.map
          DoxItem.id = some l.id)
        ↔ (((ls.filter isMatchedLine).filter
            (fun x => keyOf x == keyOf l)).head? = some l) := by
      rw [groupFor_eq]
      constructor
      · intro h1
        rcases hh : ((ls.filter isMatchedLine).filter
            (fun x => keyOf x == keyOf l)).head? with _ | hd
        · rw [hh] at h1
          cases h1
        · rw [hh] at h1
          have h2 : some hd.id = some l.id := h1
          have hids : hd.id = l.id := by injection h2
          have hdmem : hd ∈ (ls.filter isMatchedLine).filter
              (fun x => keyOf x == keyOf l) :=
            List.mem_of_mem_head? (Option.mem_def.mpr hh)
          have hdls : hd ∈ ls := hmsub hd (List.mem_filter.mp hdmem).1
          exact congrArg some (hinj hd hdls l (hmsub l hl) hids)
      · intro h1
        rw [h1]
        rfl
    have h2 : decide (keyOf l ∉ ([] : List String)) = true := by simp
    rw [h2, Bool.true_and]
    exact decide_eq_decide.mpr hiff
  have hfirst : (ls.filter isMatchedLine).countP
      (fun l => decide ((groupFor (ls.filter isMatchedLine) (keyOf l)).head?.map
          DoxItem.id = some l.id))
      = (matchedKeys ls).length := by
    rw [List.countP_congr (fun l hl => by rw [hguard l hl]),
      countP_first_eq_dedup (ls.filter isMatchedLine) hndm []]
    have hft : ((ls.filter isMatchedLine).map keyOf).filter
        (fun x => decide (x ∉ ([] : List String)))
        = (ls.filter isMatchedLine).map keyOf :=
      List.filter_eq_self.mpr (fun x _ => by simp)
    rw [hft]
    rfl
  have hsplit2 := List.length_eq_countP_add_countP
    (fun l => decide ((groupFor (ls.filter isMatchedLine) (keyOf l)).head?.map
        DoxItem.id = some l.id)) (ls.filter isMatchedLine)
  have hnotnot : (ls.filter isMatchedLine).countP
      (fun l => decide ¬(decide ((groupFor (ls.filter isMatchedLine) (keyOf l)).head?.map
          DoxItem.id = some l.id) = true))
      = (ls.filter isMatchedLine).countP
          (fun l => !(decide ((groupFor (ls.filter isMatchedLine) (keyOf l)).head?.map
              DoxItem.id = some l.id))) :=
    List.countP_congr (fun l _ => by simp)
  rw [hnotnot, hfirst] at hsplit2
  rw [consolidateDuplicatePOItems, length_filterMap_eq_countP, deletedPerGroupSum_eq]
  omega

end Bas.POMatch

namespace Bas.POMatch

/-- On values stored at the column scale, the code's
`toNumber(·, d) || 0` summation agrees with the raw (null-as-0) totals. -/
theorem sum_toNumberOr0_eq_raw (d : ℕ) (g : List DoxItem) (f : DoxItem → Option ℚ)
    (hq : ∀ m ∈ g, ∀ q, f m = some q → DecScale d q) :
    (g.map (fun m => toNumberOr0 d (f m))).sum
      = (g.map (fun m => (f m).getD 0)).sum := by
  congr 1
  apply List.map_congr_left
  intro m hm
  rcases hmq : f m with _ | q
  · rfl
  · rw [toNumberOr0_fixed (hq m hm q hmq)]
    rfl

end Bas.POMatch

namespace Bas.POMatch

/-- C2: for line lists with unique row ids and column-scale decimal values,
consolidation (a) shrinks the line count by the sum over groups of
(group size − 1), and (b) for every group key leaves exactly one survivor —
the first-seen member — which for a duplicated group carries the summed
quantity, net amount and tax amount of all members (value conservation) and
the `" (Consolidated)"` description suffix, while a singleton group's line
is left unchanged. -/
theorem consolidation_conserves (ls : List DoxItem)
    (hnd : (ls.map DoxItem.id).Nodup)
    (hq : ∀ l ∈ ls, ∀ q, l.quantity = some q → DecScale 3 q)
    (hn : ∀ l ∈ ls, ∀ q, l.netAmount = some q → DecScale 2 q)
    (ht : ∀ l ∈ ls, ∀ q, l.taxAmount = some q → DecScale 2 q) :
    (consolidateDuplicatePOItems ls).length = ls.length - deletedPerGroupSum ls
    ∧ ∀ k ∈ matchedKeys ls, ∃ hd,
        (groupFor (ls.filter isMatchedLine) k).head? = some hd
        ∧ (1 < (groupFor (ls.filter isMatchedLine) k).length →
            (consolidateDuplicatePOItems ls).filter
                (fun l => isMatchedLine l && keyOf l == k)
              = [consolidatedLine (groupFor (ls.filter isMatchedLine) k) hd]
            ∧ (consolidatedLine (groupFor (ls.filter isMatchedLine) k) hd).quantity
              = some (((groupFor (ls.filter isMatchedLine) k).map
                  (fun m => m.quantity.getD 0)).sum)
            ∧ (consolidatedLine (groupFor (ls.filter isMatchedLine) k) hd).netAmount
              = some (((groupFor (ls.filter isMatchedLine) k).map
                  (fun m => m.netAmount.getD 0)).sum)
            ∧ (consolidatedLine (groupFor (ls.filter isMatchedLine) k) hd).taxAmount
              = some (((groupFor (ls.filter isMatchedLine) k).map
                  (fun m => m.taxAmount.getD 0)).sum)
            ∧ (consolidatedLine (groupFor (ls.filter isMatchedLine) k) hd).description
              = hd.description ++ " (Consolidated)")
        ∧ ((groupFor (ls.filter isMatchedLine) k).length = 1 →
            (consolidateDuplicatePOItems ls).filter
                (fun l => isMatchedLine l && keyOf l == k) = [hd]) := by
  refine ⟨consolidate_length ls hnd, ?_⟩
  intro k hk
  have hpos : 1 ≤ (groupFor (ls.filter isMatchedLine) k).length :=
    one_le_group_length ls k hk
  have hne : groupFor (ls.filter isMatchedLine) k ≠ [] :=
    List.ne_nil_of_length_pos (by omega)
  obtain ⟨hd, t, hht⟩ := List.exists_cons_of_ne_nil hne
  have hhd : (groupFor (ls.filter isMatchedLine) k).head? = some hd := by
    rw [hht]
    rfl
  have hsub : ∀ m ∈ groupFor (ls.filter isMatchedLine) k, m ∈ ls := by
    intro m hm
    rw [groupFor_eq] at hm
    exact (List.mem_filter.mp ((List.mem_filter.mp hm).1)).1
  refine ⟨hd, hhd, ?_, ?_⟩
  · intro hlen
    have hfk := consolidate_filter_key ls hnd k hd hhd
    rw [if_pos hlen] at hfk
    refine ⟨hfk, ?_, ?_, ?_, rfl⟩
    · show some (sumQty (groupFor (ls.filter isMatchedLine) k)) = _
      rw [sumQty, sum_toNumberOr0_eq_raw 3 _ _
        (fun m hm q hq' => hq m (hsub m hm) q hq')]
    · show some (sumNet (groupFor (ls.filter isMatchedLine) k)) = _
      rw [sumNet, sum_toNumberOr0_eq_raw 2 _ _
        (fun m hm q hq' => hn m (hsub m hm) q hq')]
    · show some (sumTax (groupFor (ls.filter isMatchedLine) k)) = _
      rw [sumTax, sum_toNumberOr0_eq_raw 2 _ _
        (fun m hm q hq' => ht m (hsub m hm) q hq')]
  · intro hlen
    have hfk := consolidate_filter_key ls hnd k hd hhd
    rw [if_neg (by omega)] at hfk
    exact hfk

/-- Witness for C2 on `sampleConsolidationLines`: the two duplicate lines
collapse into one, leaving 2 of the 3 rows. -/
theorem consolidation_conserves_witness :
    (consolidateDuplicatePOItems sampleConsolidationLines).length = 2 := by
  have hnd : (sampleConsolidationLines.map DoxItem.id).Nodup := by
    simp [sampleConsolidationLines]
  have hq : ∀ l ∈ sampleConsolidationLines, ∀ q, l.quantity = some q →
      DecScale 3 q := by
    intro l hl q hqe
    fin_cases hl
    · injection hqe with h
      subst h
      exact ⟨5000, by norm_num⟩
    · injection hqe with h
      subst h
      exact ⟨3000, by norm_num⟩
    · cases hqe
  have hn : ∀ l ∈ sampleConsolidationLines, ∀ q, l.netAmount = some q →
      DecScale 2 q := by
    intro l hl q hqe
    fin_cases hl
    · injection hqe with h
      subst h
      exact ⟨10000, by norm_num⟩
    · injection hqe with h
      subst h
      exact ⟨6000, by norm_num⟩
    · cases hqe
  have ht : ∀ l ∈ sampleConsolidationLines, ∀ q, l.taxAmount = some q →
      DecScale 2 q := by
    intro l hl q hqe
    fin_cases hl
    · injection hqe with h
      subst h
      exact ⟨1000, by norm_num⟩
    · injection hqe with h
      subst h
      exact ⟨500, by norm_num⟩
    · cases hqe
  have h := (consolidation_conserves sampleConsolidationLines hnd hq hn ht).1
  rw [h]
  with_unfolding_all rfl

end Bas.POMatch
